import Mathlib

/-!
Verification development for the zepto-scraper repository.

The repository drives a browser to extract product data from three
quick-commerce storefronts (Zepto, Blinkit, Instamart).  This file gives a
shallow embedding of the pure data-processing core of the three platform
adapters and of the run orchestrator, and proves (or refutes) the frozen
specification claims against it.

Modelling conventions, used throughout:
* Browser pages are modelled by the data the code reads off them: the list of
  JSON candidate objects produced by the regex-anchored scan of the raw
  markup, the visible body text, the h1 heading, and explicit failure slots
  (an `Option String` carrying the exception message) for each await point
  whose exception is not swallowed locally by the Python code.
* Python numeric JSON fields are modelled as `Option ℚ` (absent key vs a
  JSON number); Python `str`/`int`/`None` identifier fields as `PyV`.
  Python truthiness is modelled explicitly (`0`, `""`, `None` are falsy).
* Keys that Python distinguishes between "absent" and "present with value
  None" (membership tests `'k' in p`) are modelled as `Option (Option Int)`.
* Python dicts are insertion-ordered association lists `List (String × α)`.
-/

namespace ZeptoScraper

/-! ## Python-style string primitives (on `List Char`) -/

/-- Python `\s` whitespace class (ASCII part). -/
def isPySpace (c : Char) : Bool :=
  c == ' ' || c == '\t' || c == '\n' || c == '\r' || c == '\x0b' || c == '\x0c'

/-- Case-insensitive character comparison (ASCII). -/
def lcEq (a b : Char) : Bool := a.toLower == b.toLower

/-- Python `str.lower()` (ASCII). -/
def pyLower (s : String) : String := String.mk (s.data.map Char.toLower)

/-- Strip leading characters satisfying `p`. -/
def dropLeading (p : Char → Bool) : List Char → List Char
  | [] => []
  | c :: cs => if p c then dropLeading p cs else c :: cs

/-- Python `str.strip()` (whitespace both ends). -/
def pyStrip (s : String) : String :=
  String.mk (((dropLeading isPySpace s.data).reverse |> dropLeading isPySpace).reverse)

/-- Python `str.rstrip('/')`. -/
def rstripSlash (s : String) : String :=
  String.mk ((dropLeading (fun c => c == '/') s.data.reverse).reverse)

/-- Split a character list on a (non-empty) separator, Python
`str.split(sep)`.  Structural recursion on a fuel counter (initialised to
the list length, which always suffices: each step consumes at least one
character) so that the kernel can evaluate it. -/
def splitOnCsF (sep : List Char) : Nat → List Char → List (List Char)
  | 0, _ => [[]]
  | _ + 1, [] => [[]]
  | fuel + 1, c :: rest =>
    if sep ≠ [] ∧ sep.isPrefixOf (c :: rest) then
      [] :: splitOnCsF sep fuel (List.drop (sep.length - 1) rest)
    else
      match splitOnCsF sep fuel rest with
      | [] => [[c]]
      | h :: t => (c :: h) :: t

/-- Python `str.split(sep)` for a non-empty separator. -/
def pySplit (s sep : String) : List String :=
  (splitOnCsF sep.data s.data.length s.data).map String.mk

/-- Replace every occurrence of a (non-empty) substring, Python
`str.replace`, with the same fuel discipline. -/
def replaceCsF (sub repl : List Char) : Nat → List Char → List Char
  | 0, cs => cs
  | _ + 1, [] => []
  | fuel + 1, c :: rest =>
    if sub ≠ [] ∧ sub.isPrefixOf (c :: rest) then
      repl ++ replaceCsF sub repl fuel (List.drop (sub.length - 1) rest)
    else
      c :: replaceCsF sub repl fuel rest

/-- Python `str.replace(sub, repl)`. -/
def pyReplace (s sub repl : String) : String :=
  String.mk (replaceCsF sub.data repl.data s.data.length s.data)

/-- Python `str.title()`: a cased character following a non-cased character is
upper-cased, every other cased character is lower-cased. -/
def titleCs : Bool → List Char → List Char
  | _, [] => []
  | prevCased, c :: cs =>
    if c.isAlpha then
      (if prevCased then c.toLower else c.toUpper) :: titleCs true cs
    else
      c :: titleCs false cs

/-- Python `str.title()`. -/
def pyTitle (s : String) : String := String.mk (titleCs false s.data)

/-- Does `sub` occur as a (contiguous) substring, Python `sub in s`? -/
def subInCs (sub : List Char) : List Char → Bool
  | [] => sub.isPrefixOf []
  | c :: rest => sub.isPrefixOf (c :: rest) || subInCs sub rest

/-- Python substring containment `sub in s`. -/
def containsSub (s sub : String) : Bool := subInCs sub.data s.data

/-! ## Python values and truthiness -/

/-- A Python scalar as it appears in the decoded JSON objects: `None`, an
`int`, or a `str`.  Used for identifier-like fields passed to `str(...)`. -/
inductive PyV where
  | vnone : PyV
  | vint : Int → PyV
  | vstr : String → PyV
deriving DecidableEq, Repr

/-- Python truthiness of a `PyV`. -/
def PyV.truthy : PyV → Bool
  | .vnone => false
  | .vint n => n != 0
  | .vstr s => s != ""

/-- Python `str(...)` of a `PyV`. -/
def PyV.pyStr : PyV → String
  | .vnone => "None"
  | .vint n => toString n
  | .vstr s => s

/-- Python `a or b` on `PyV`. -/
def pyOrV (a b : PyV) : PyV := if a.truthy then a else b

/-- Truthiness of an optional string (`None` and `""` are falsy). -/
def optSTruthy (o : Option String) : Bool :=
  match o with
  | none => false
  | some s => s != ""

/-- Python `a or b` on optional strings. -/
def sOr (a b : Option String) : Option String := if optSTruthy a then a else b

/-- Python `a or b or dflt` collapsing optional strings to a string. -/
def sOrD (a b : Option String) (dflt : String) : String :=
  match sOr a b with
  | some s => if s != "" then s else dflt
  | none => dflt

/-- Truthiness of an optional rational (absent and `0` are falsy),
modelling `p.get(k)` used in a boolean context for a numeric field. -/
def qTruthy (o : Option ℚ) : Bool :=
  match o with
  | none => false
  | some q => q != 0

/-! ## Regex models

Each Python regex used by the scrapers is modelled by a hand-rolled matcher
on `List Char`.  `searchL` models `re.search`'s leftmost-match scan.  None of
the patterns require backtracking (their character classes are disjoint), so
greedy scanning is exact. -/

/-- Leftmost-match search: try the position matcher `f` at every suffix. -/
def searchL (f : List Char → Option (List Char)) : List Char → Option (List Char)
  | [] => f []
  | c :: rest =>
    match f (c :: rest) with
    | some r => some r
    | none => searchL f rest

/-- Case-insensitive literal prefix match; on success returns the rest. -/
def ciPref : List Char → List Char → Option (List Char)
  | [], rest => some rest
  | _ :: _, [] => none
  | w :: ws, c :: cs => if lcEq c w then ciPref ws cs else none

/-- Case-sensitive literal prefix match; on success returns the rest. -/
def csPref : List Char → List Char → Option (List Char)
  | [], rest => some rest
  | _ :: _, [] => none
  | w :: ws, c :: cs => if c == w then csPref ws cs else none

/-- Matcher for Zepto's ETA pattern at one position: `\d+\s*mins?`
(re.IGNORECASE).  Returns the matched text. -/
def zEtaAt (cs : List Char) : Option (List Char) :=
  let ds := cs.takeWhile Char.isDigit
  let r1 := cs.dropWhile Char.isDigit
  if ds.isEmpty then none
  else
    let ws := r1.takeWhile isPySpace
    let r2 := r1.dropWhile isPySpace
    match r2 with
    | m :: i :: n :: rest =>
      if lcEq m 'm' && lcEq i 'i' && lcEq n 'n' then
        match rest with
        | s :: _ => if lcEq s 's' then some (ds ++ ws ++ [m, i, n, s])
                    else some (ds ++ ws ++ [m, i, n])
        | [] => some (ds ++ ws ++ [m, i, n])
      else none
    | _ => none

/-- `re.search(r'(\d+\s*mins?)', text, re.IGNORECASE)`: the matched group,
from zepto.py `set_location`. -/
def zeptoEtaFind (s : String) : Option String :=
  (searchL zEtaAt s.data).map String.mk

/-- Matcher for Blinkit's ETA pattern at one position:
`\d+\s*minutes?|mins?` (re.IGNORECASE).  The first alternative is tried
first; note the second alternative matches a bare `mins`/`min`. -/
def bEtaAt (cs : List Char) : Option (List Char) :=
  let ds := cs.takeWhile Char.isDigit
  let r1 := cs.dropWhile Char.isDigit
  let altA : Option (List Char) :=
    if ds.isEmpty then none
    else
      let ws := r1.takeWhile isPySpace
      let r2 := r1.dropWhile isPySpace
      match ciPref ("minute").data r2 with
      | some rest =>
        let core := ds ++ ws ++ r2.take 6
        match rest with
        | s :: _ => if lcEq s 's' then some (core ++ [s]) else some core
        | [] => some core
      | none => none
  match altA with
  | some r => some r
  | none =>
    match ciPref ("min").data cs with
    | some rest =>
      let core := cs.take 3
      match rest with
      | s :: _ => if lcEq s 's' then some (core ++ [s]) else some core
      | [] => some core
    | none => none

/-- `re.search(r'(\d+\s*minutes?|mins?)', text, re.IGNORECASE)`: the matched
group, from blinkit.py `set_location`. -/
def blinkitEtaFind (s : String) : Option String :=
  (searchL bEtaAt s.data).map String.mk

/-- Character class `[a-f0-9\-]` of the Zepto product-id pattern. -/
def isHexDash (c : Char) : Bool :=
  (('a' ≤ c && c ≤ 'f') || c.isDigit || c == '-')

/-- `re.search(r'pvid/([a-f0-9\-]{36})', url)`: the captured 36-character id,
from zepto.py `scrape_availability`. -/
def pvidFind (url : String) : Option String :=
  (searchL
    (fun cs =>
      match csPref ("pvid/").data cs with
      | some rest =>
        let cls := rest.take 36
        if cls.length == 36 && cls.all isHexDash then some cls else none
      | none => none)
    url.data).map String.mk

/-- `re.search(r'prid/(\d+)', url)`: the captured digit run, from blinkit.py
`scrape_availability`. -/
def pridFind (url : String) : Option String :=
  (searchL
    (fun cs =>
      match csPref ("prid/").data cs with
      | some rest =>
        let ds := rest.takeWhile Char.isDigit
        if ds.isEmpty then none else some ds
      | none => none)
    url.data).map String.mk

/-- Matcher for zepto.py `extract_line_after`:
`re.search(f"{keyword}\n(.*?)\n", text, re.IGNORECASE)`.  Without DOTALL the
lazy group cannot cross a newline, so the match is the line following the
keyword, which must itself be newline-terminated. -/
def lineAfterAt (kw : List Char) (cs : List Char) : Option (List Char) :=
  match ciPref kw cs with
  | some ('\n' :: r2) =>
    let cap := r2.takeWhile (fun c => !(c == '\n'))
    let r3 := r2.dropWhile (fun c => !(c == '\n'))
    match r3 with
    | _ :: _ => some cap
    | [] => none
  | _ => none

/-- zepto.py `extract_line_after(keyword)`: the stripped captured line. -/
def extractLineAfter (kw text : String) : Option String :=
  (searchL (lineAfterAt kw.data) text.data).map (fun cap => pyStrip (String.mk cap))

/-- Everything up to (excluding) the first blank line (`\n\n`), for the lazy
group of the section pattern. -/
def takeUntilDoubleNl : List Char → List Char
  | [] => []
  | '\n' :: '\n' :: _ => []
  | c :: rest => c :: takeUntilDoubleNl rest

/-- Matcher for blinkit.py / instamart.py `extract_section`:
`re.search(f"{keyword}\n(.*?)(?:\n\n|\Z)", text, re.IGNORECASE | re.DOTALL)`.
The lazy DOTALL group captures up to the first blank line, or to the end of
the text when there is none. -/
def sectionAt (kw : List Char) (cs : List Char) : Option (List Char) :=
  match ciPref kw cs with
  | some ('\n' :: r2) => some (takeUntilDoubleNl r2)
  | _ => none

/-- blinkit.py / instamart.py `extract_section(keyword)`: the stripped capture. -/
def extractSection (kw text : String) : Option String :=
  (searchL (sectionAt kw.data) text.data).map (fun cap => pyStrip (String.mk cap))

/-- Unit-letter class `[kgmlKGML]` of the Instamart weight pattern. -/
def isUnitChar (c : Char) : Bool :=
  c == 'k' || c == 'g' || c == 'm' || c == 'l' ||
  c == 'K' || c == 'G' || c == 'M' || c == 'L'

/-- Matcher for instamart.py's weight pattern at one position:
`\(([\d\.]+\s*[kgmlKGML]+)\)`.  Returns the captured group (inside the
parentheses). -/
def weightAt (cs : List Char) : Option (List Char) :=
  match cs with
  | '(' :: r1 =>
    let ds := r1.takeWhile (fun c => c.isDigit || c == '.')
    let r2 := r1.dropWhile (fun c => c.isDigit || c == '.')
    if ds.isEmpty then none
    else
      let ws := r2.takeWhile isPySpace
      let r3 := r2.dropWhile isPySpace
      let us := r3.takeWhile isUnitChar
      let r4 := r3.dropWhile isUnitChar
      if us.isEmpty then none
      else
        match r4 with
        | ')' :: _ => some (ds ++ ws ++ us)
        | _ => none
  | _ => none

/-- `re.search(r'\(([\d\.]+\s*[kgmlKGML]+)\)', name)`: the captured weight. -/
def weightFind (s : String) : Option String :=
  (searchL weightAt s.data).map String.mk

/-! ## Data model (scrapers/models.py) -/

/-- `AvailabilityResult` from scrapers/models.py.  Numeric prices are
modelled as exact rationals. -/
structure AvailabilityResult where
  input_pincode : String
  url : String
  platform : String
  name : String
  price : ℚ
  mrp : ℚ
  availability : String
  seller_details : Option String
  manufacturer_details : Option String
  marketer_details : Option String
  variant_count : Option Int
  variant_in_stock_count : Option Int
  inventory : Option Int
  scraped_at : String
  error : Option String
deriving DecidableEq, Repr

/-- `ProductItem` from scrapers/models.py. -/
structure ProductItem where
  platform : String
  category : String
  subcategory : String
  clicked_label : String
  name : String
  brand : String
  base_product_id : Option String
  group_id : Option String
  merchant_type : Option String
  price : ℚ
  mrp : ℚ
  weight : String
  shelf_life_in_hours : Option Int
  availability : String
  inventory : Option Int
  eta : String
  store_id : Option String
  image_url : String
  product_url : String
  scraped_at : String
  pincode_input : String
deriving DecidableEq, Repr

/-- Per-page context computed once per assortment scan: category path parsed
from the URL, the session ETA, the scan timestamp and the input pincode. -/
structure ScanCtx where
  category : String
  subcategory : String
  clicked_label : String
  eta : String
  timestamp : String
  pincode : String
deriving DecidableEq, Repr

/-- Category/subcategory derivation shared verbatim by zepto.py and
blinkit.py `scrape_assortment`: split the URL on `/cn/`, take the path up to
`/cid/`, split on `/`; title-case with hyphens replaced by spaces. -/
def parseCnCid (category_url : String) : String × String :=
  match pySplit category_url ("/cn/") with
  | _ :: after :: _ =>
    let pathParts := pySplit ((pySplit after ("/cid/")).headD ("")) ("/")
    let category := pyTitle (pyReplace (pathParts.headD ("")) ("-") (" "))
    let subcategory :=
      match pathParts with
      | _ :: s :: _ => pyTitle (pyReplace s ("-") (" "))
      | _ => "N/A"
    (category, subcategory)
  | _ => ("N/A", "N/A")

/-- `f"{category} > {subcategory}" if subcategory != "N/A" else category`. -/
def clickedLabelOf (cs : String × String) : String :=
  if cs.2 != "N/A" then cs.1 ++ " > " ++ cs.2 else cs.1

/-- Build a `ScanCtx` the way both assortment scrapers do. -/
def mkScanCtx (category_url pincode eta timestamp : String) : ScanCtx :=
  let cs := parseCnCid category_url
  { category := cs.1, subcategory := cs.2, clicked_label := clickedLabelOf cs,
    eta := eta, timestamp := timestamp, pincode := pincode }

/-- Python `s.startswith(p)`. -/
def pyStartsWith (s p : String) : Bool := (csPref p.data s.data).isSome

/-- `Option.join` for the absent/null/int field model. -/
def joinI (o : Option (Option Int)) : Option Int := o.getD none

/-- `int(a or b or 0)` over two absent/null/int fields (`None` and `0` are
both falsy, and `int` of either chain outcome is the value itself). -/
def orChainNonzero (a b : Option (Option Int)) : Int :=
  let av := (joinI a).getD 0
  let bv := (joinI b).getD 0
  if av != 0 then av else if bv != 0 then bv else 0

/-! ## Zepto assortment extractor (zepto.py `scrape_assortment`) -/

/-- One candidate object produced by the Zepto embedded-JSON scan (anchor
`{"id":"<36 hex>"` + `json.JSONDecoder.raw_decode`).  Fields are the keys
the scraper reads; `reprLen` abstracts `len(str(p_data))`, used by the
availability prober's largest-candidate tie-break. -/
structure ZCand where
  id : String := ""
  name : Option String := none
  sellingPrice : Option ℚ := none
  mrp : Option ℚ := none
  brand : Option String := none
  brandName : Option String := none
  isSoldOut : Bool := false
  inventory : Option (Option Int) := none
  available_quantity : Option (Option Int) := none
  shelfLife : Option (Option Int) := none
  shelf_life : Option (Option Int) := none
  weight : Option String := none
  unitSize : Option String := none
  storeId : Option String := none
  images : List (Option String) := []
  manufacturerName : Option String := none
  manufacturerAddress : Option String := none
  importedBy : Option String := none
  sellerName : Option String := none
  productVariants : List Bool := []
  reprLen : Nat := 0
deriving DecidableEq, Repr

/-- `p_data.get('id') and p_data.get('name')` acceptance test. -/
def zPass (c : ZCand) : Bool := (c.id != "") && optSTruthy c.name

/-- The dedup key: `p_data.get('name').strip()`. -/
def zName (c : ZCand) : String := pyStrip (c.name.getD (""))

/-- Replace the value stored at key `k` (Python `dict[k] = v` on an existing
key: position and key unchanged). -/
def zReplaceAt (m : List (String × ZCand)) (k : String) (c : ZCand) :
    List (String × ZCand) :=
  m.map (fun kv => if kv.1 == k then (kv.1, c) else kv)

/-- First value stored under key `k`. -/
def zLookup (m : List (String × ZCand)) (k : String) : Option ZCand :=
  (m.find? (fun kv => kv.1 == k)).map (fun kv => kv.2)

/-- zepto.py lines 174-187: build `json_products_map` (name → candidate).
A new name is inserted; a colliding candidate replaces the stored one only
when it has a truthy `mrp` and the stored one does not. -/
def zeptoFold : List (String × ZCand) → List ZCand → List (String × ZCand)
  | m, [] => m
  | m, c :: rest =>
    if zPass c then
      let n := zName c
      match zLookup m n with
      | none => zeptoFold (m ++ [(n, c)]) rest
      | some e =>
        if qTruthy c.mrp && !(qTruthy e.mrp) then zeptoFold (zReplaceAt m n c) rest
        else zeptoFold m rest
    else zeptoFold m rest

/-- The produce-category keyword denylist of zepto.py line 218. -/
def zeptoBadKeywords : List String :=
  ["detergent", "liquid", "powder", "cleaner", "soap", "wash", "shampoo",
   "harpic", "surf", "ariel"]

/-- zepto.py lines 216-220: skip the record when the category is
produce-like and the name matches the denylist. -/
def zeptoSanitySkip (category name : String) : Bool :=
  (containsSub (pyLower category) ("vegetable") ||
   containsSub (pyLower category) ("fruit")) &&
  zeptoBadKeywords.any (fun k => containsSub (pyLower name) k)

/-- zepto.py lines 228-235: inventory extraction (key-presence test, truthy
or-chain, zero collapsed to null). -/
def zeptoInventoryOf (c : ZCand) : Option Int :=
  if c.inventory.isSome || c.available_quantity.isSome then
    let v := orChainNonzero c.inventory c.available_quantity
    if v == 0 then none else some v
  else none

/-- zepto.py lines 238-245: shelf-life extraction, same shape. -/
def zeptoShelfOf (c : ZCand) : Option Int :=
  if c.shelfLife.isSome || c.shelf_life.isSome then
    let v := orChainNonzero c.shelfLife c.shelf_life
    if v == 0 then none else some v
  else none

def zeptoBaseUrl : String := "https://www.zepto.com/"

/-- zepto.py lines 247-252: image-URL construction with CDN prefixing. -/
def zeptoImageOf (c : ZCand) : String :=
  match c.images with
  | [] => "N/A"
  | p0 :: _ =>
    let iu := p0.getD ("N/A")
    if iu != "N/A" && !(pyStartsWith iu ("http")) then
      "https://cdn.zepto.com/production/" ++ iu
    else iu

/-- zepto.py lines 254-276: the `ProductItem` built for one map entry
(`name` is the map key). -/
def zeptoMkItem (ctx : ScanCtx) (name : String) (c : ZCand) : ProductItem :=
  { platform := "zepto"
    category := ctx.category
    subcategory := ctx.subcategory
    clicked_label := ctx.clicked_label
    name := name
    brand := sOrD c.brand c.brandName ("Unknown")
    base_product_id := some c.id
    group_id := none
    merchant_type := none
    mrp := (c.mrp.getD 0) / 100
    price := (c.sellingPrice.getD 0) / 100
    weight := sOrD c.weight c.unitSize ("N/A")
    shelf_life_in_hours := zeptoShelfOf c
    eta := ctx.eta
    availability := if c.isSoldOut then "Out of Stock" else "In Stock"
    inventory := zeptoInventoryOf c
    store_id := c.storeId
    image_url := zeptoImageOf c
    product_url := zeptoBaseUrl ++ "pn/" ++ pyReplace (pyLower name) (" ") ("-")
                   ++ "/pvid/" ++ c.id
    scraped_at := ctx.timestamp
    pincode_input := ctx.pincode }

/-- A rendered Zepto category page, by what `scrape_assortment` reads:
the 404-interstitial test, the redirected-to-home test, whether the
smart-navigation fallback click succeeds, and the candidates of the
embedded-JSON scan of the page content at extraction time. -/
structure ZAPage where
  is404 : Bool := false
  redirectedHome : Bool := false
  navClickOk : Bool := true
  candidates : List ZCand := []
deriving Repr

/-- zepto.py `scrape_assortment`: smart-navigation check (return `[]` when
the deep link failed and the fallback click also fails), then the JSON-first
extraction over the deduplicated candidate map with the produce sanity
filter. -/
def zeptoScrapeAssortment (pg : ZAPage)
    (category_url pincode eta timestamp : String) : List ProductItem :=
  if (pg.is404 || pg.redirectedHome) && !pg.navClickOk then []
  else
    let ctx := mkScanCtx category_url pincode eta timestamp
    ((zeptoFold [] pg.candidates).filter
        (fun kv => !(zeptoSanitySkip ctx.category kv.1))).map
      (fun kv => zeptoMkItem ctx kv.1 kv.2)

/-! ## Blinkit assortment extractor (blinkit.py `scrape_assortment`) -/

/-- One candidate object produced by the Blinkit embedded-JSON scan (anchor
`{"product_id"` + `raw_decode`).  `id` is the fallback `'id'` key; `name` is
the `'name'` key read by the availability prober. -/
structure BCand where
  product_id : PyV := .vnone
  id : PyV := .vnone
  name : Option String := none
  product_name : Option String := none
  display_name : Option String := none
  brand : Option String := none
  unavailable_quantity : Option (Option Int) := none
  inventory : Option (Option Int) := none
  shelf_life_hours : Option (Option Int) := none
  shelf_life : Option (Option Int) := none
  mrp : Option ℚ := none
  price : Option ℚ := none
  unit : Option String := none
  quantity_info : Option String := none
  merchant_id : PyV := .vnone
  group_id : Option String := none
  groupId : Option String := none
  merchant_type : Option String := none
  merchantType : Option String := none
  image_url : Option String := none
deriving DecidableEq, Repr

/-- `pid = str(prod_obj.get('product_id') or prod_obj.get('id'))`. -/
def bPid (c : BCand) : String := (pyOrV c.product_id c.id).pyStr

/-- blinkit.py lines 134-142: build `products_map`, first candidate with a
given (truthy) pid wins, later collisions are dropped. -/
def blinkitFold : List (String × BCand) → List BCand → List (String × BCand)
  | m, [] => m
  | m, c :: rest =>
    let pid := bPid c
    if pid != "" && !(m.any (fun kv => kv.1 == pid)) then
      blinkitFold (m ++ [(pid, c)]) rest
    else blinkitFold m rest

/-- blinkit.py line 151:
`p.get('unavailable_quantity') == 1 or p.get('inventory') == 0`. -/
def blinkitUnavailable (c : BCand) : Bool :=
  (joinI c.unavailable_quantity == some 1) || (joinI c.inventory == some 0)

/-- blinkit.py lines 154-159: `'inventory' in p and p['inventory'] is not
None` then `int(...)`. -/
def blinkitInventoryOf (c : BCand) : Option Int :=
  match c.inventory with
  | some (some n) => some n
  | _ => none

/-- blinkit.py lines 162-169: shelf-life extraction. -/
def blinkitShelfOf (c : BCand) : Option Int :=
  if c.shelf_life.isSome || c.shelf_life_hours.isSome then
    let v := orChainNonzero c.shelf_life_hours c.shelf_life
    if v == 0 then none else some v
  else none

def blinkitBaseUrl : String := "https://blinkit.com/"

/-- blinkit.py lines 148-193: the `ProductItem` built for one map entry. -/
def blinkitMkItem (ctx : ScanCtx) (pid : String) (c : BCand) : ProductItem :=
  let name := sOrD c.product_name c.display_name ("Unknown")
  { platform := "blinkit"
    category := ctx.category
    subcategory := ctx.subcategory
    clicked_label := ctx.clicked_label
    name := name
    brand := sOrD c.brand none ("Unknown")
    base_product_id := some pid
    group_id := sOr c.group_id c.groupId
    merchant_type := sOr c.merchant_type c.merchantType
    mrp := c.mrp.getD 0
    price := c.price.getD 0
    weight := sOrD c.unit c.quantity_info ("N/A")
    shelf_life_in_hours := blinkitShelfOf c
    eta := ctx.eta
    availability := if blinkitUnavailable c then "Out of Stock" else "In Stock"
    inventory := blinkitInventoryOf c
    store_id := some (pyOrV c.merchant_id (.vstr ("Unknown"))).pyStr
    image_url := sOrD c.image_url none ("N/A")
    product_url := blinkitBaseUrl ++ "prn/" ++ pyReplace (pyLower name) (" ") ("-")
                   ++ "/prid/" ++ pid
    scraped_at := ctx.timestamp
    pincode_input := ctx.pincode }

/-- blinkit.py `scrape_assortment` over the candidates of the JSON scan. -/
def blinkitScrapeAssortment (cands : List BCand)
    (category_url pincode eta timestamp : String) : List ProductItem :=
  let ctx := mkScanCtx category_url pincode eta timestamp
  (blinkitFold [] cands).map (fun kv => blinkitMkItem ctx kv.1 kv.2)

/-! ## Instamart assortment extractor (instamart.py `scrape_assortment`)

The JSON-LD scan is modelled by the flattened list of `Product` entries of
the `ItemList` scripts, in document order.  An `offers` value of list type
raises inside the per-script handler in the source (the script is dropped
mid-way); only dict-shaped (or absent) offers are modelled. -/

/-- One JSON-LD `Product` entry as the Instamart assortment scraper reads
it.  `brandName` is the resolved `item.get('brand', {}).get('name')`. -/
structure IEntry where
  atProduct : Bool := true
  name : Option String := none
  sku : Option String := none
  offerPrice : Option ℚ := none
  offerAvailability : Option String := none
  image : Option (String ⊕ List String) := none
  brandName : Option String := none
deriving Repr

/-- The dict stored into `products_map` (instamart.py lines 245-253). -/
structure IStored where
  name : String
  price : ℚ
  mrp : ℚ
  image : String
  brand : String
  availability : String
deriving DecidableEq, Repr

/-- instamart.py lines 229-253: key and stored record for one entry.
`hashName` abstracts Python's process-seeded `abs(hash(p_name))`. -/
def iStoreOf (hashName : String → Nat) (e : IEntry) : String × IStored :=
  let pName := e.name.getD ("Unknown")
  let pid :=
    match e.sku with
    | some s => if s != "" then s else Nat.repr (hashName pName)
    | none => Nat.repr (hashName pName)
  let image :=
    match e.image with
    | some (.inl s) => if s != "" then s else "N/A"
    | some (.inr (i0 :: _)) => i0
    | some (.inr []) => "N/A"
    | none => "N/A"
  (pid,
    { name := pName
      price := e.offerPrice.getD 0
      mrp := e.offerPrice.getD 0
      image := image
      brand := e.brandName.getD ("Unknown")
      availability := e.offerAvailability.getD ("Unknown") })

/-- Python `dict[k] = v`: replace in place when the key exists, else append. -/
def imUpsert (m : List (String × IStored)) (k : String) (v : IStored) :
    List (String × IStored) :=
  if m.any (fun kv => kv.1 == k) then
    m.map (fun kv => if kv.1 == k then (kv.1, v) else kv)
  else m ++ [(k, v)]

/-- instamart.py lines 226-253: build `products_map` over the entries. -/
def instamartFold (hashName : String → Nat) :
    List (String × IStored) → List IEntry → List (String × IStored)
  | m, [] => m
  | m, e :: rest =>
    if e.atProduct then
      let kv := iStoreOf hashName e
      instamartFold hashName (imUpsert m kv.1 kv.2) rest
    else instamartFold hashName m rest

/-- instamart.py lines 262-269: category from the `categoryName=` query
parameter; the subcategory repeats the category. -/
def instamartCategoryOf (url : String) : String × String :=
  if containsSub url ("categoryName=") then
    let c := pyReplace
      ((pySplit ((pySplit url ("categoryName=")).getD 1 ("")) ("&")).headD (""))
      ("%20") (" ")
    (c, c)
  else ("N/A", "N/A")

def instamartBaseUrl : String := "https://www.swiggy.com/instamart"

/-- instamart.py lines 275-309: the `ProductItem` built for one map entry. -/
def instamartMkItem (ctx : ScanCtx) (pid : String) (p : IStored) : ProductItem :=
  { platform := "instamart"
    category := ctx.category
    subcategory := ctx.subcategory
    clicked_label := ctx.clicked_label
    name := p.name
    brand := p.brand
    base_product_id := some pid
    group_id := none
    merchant_type := none
    mrp := p.mrp
    price := p.price
    weight := (weightFind p.name).getD ("N/A")
    shelf_life_in_hours := none
    eta := ctx.eta
    availability := if containsSub p.availability ("InStock") then "In Stock"
                    else "Out of Stock"
    inventory := none
    store_id := some ("Unknown")
    image_url := p.image
    product_url := instamartBaseUrl ++ "/item/" ++ pid
    scraped_at := ctx.timestamp
    pincode_input := ctx.pincode }

/-- instamart.py `scrape_assortment` over the flattened JSON-LD entries. -/
def instamartScrapeAssortment (entries : List IEntry) (hashName : String → Nat)
    (category_url pincode eta timestamp : String) : List ProductItem :=
  let cs := instamartCategoryOf category_url
  let ctx : ScanCtx :=
    { category := cs.1, subcategory := cs.2, clicked_label := clickedLabelOf cs,
      eta := eta, timestamp := timestamp, pincode := pincode }
  (instamartFold hashName [] entries).map (fun kv => instamartMkItem ctx kv.1 kv.2)

/-! ## Zepto availability prober (zepto.py `scrape_availability`)

The page is modelled by what the prober reads: the 404 test on the content,
the candidate list of the embedded-JSON scan, the `h1` heading, the visible
body text, and the variant-chip count.  `gotoFail` and `bodyFail` are the
two await points inside the outer `try` whose exceptions are not swallowed
by a nested handler (`page.goto` and `page.inner_text("body")`). -/

structure ZPage where
  gotoFail : Option String := none
  content404 : Bool := false
  candidates : List ZCand := []
  h1 : Option String := none
  bodyFail : Option String := none
  bodyText : String := ""
  variantChips : Nat := 0
deriving Repr

/-- Earliest candidate of maximal `len(str(...))`: the head of the stable
descending sort of zepto.py line 345. -/
def zLargest : List ZCand → Option ZCand
  | [] => none
  | c :: rest =>
    some (rest.foldl (fun best x => if x.reprLen > best.reprLen then x else best) c)

/-- zepto.py lines 323-346: pick the candidate matching the `pvid` id from
the URL, else the largest candidate. -/
def zeptoExtractedJson (pg : ZPage) (url : String) : Option ZCand :=
  let cs := pg.candidates.filter zPass
  let byId :=
    match pvidFind url with
    | some tid => cs.find? (fun c => c.id == tid)
    | none => none
  match byId with
  | some c => some c
  | none => zLargest cs

/-- zepto.py lines 290-306: the pre-filled result record. -/
def zeptoAvailInit (url timestamp : String) : AvailabilityResult :=
  { input_pincode := "", url := url, platform := "zepto", name := "N/A",
    price := 0, mrp := 0, availability := "Unknown", seller_details := none,
    manufacturer_details := none, marketer_details := none,
    variant_count := some 1, variant_in_stock_count := some 1,
    inventory := none, scraped_at := timestamp, error := none }

/-- zepto.py lines 348-369: fill the result from the extracted JSON object. -/
def zeptoFillFromJson (r : AvailabilityResult) (c : ZCand) : AvailabilityResult :=
  let rA := { r with name := c.name.getD ("N/A") }
  let rB := if qTruthy c.sellingPrice then
      { rA with price := (c.sellingPrice.getD 0) / 100 } else rA
  let rC := if qTruthy c.mrp then { rB with mrp := (c.mrp.getD 0) / 100 } else rB
  let rD := if c.isSoldOut then
      { rC with availability := "Out of Stock", variant_in_stock_count := some 0 }
    else { rC with availability := "In Stock" }
  let rE := { rD with
    manufacturer_details := sOr c.manufacturerName c.manufacturerAddress,
    marketer_details := c.importedBy,
    seller_details := some (sOrD c.sellerName none ("Zepto")) }
  if !c.productVariants.isEmpty then
    { rE with variant_count := some (Int.ofNat c.productVariants.length),
              variant_in_stock_count := some (Int.ofNat (c.productVariants.count false)) }
  else rE

/-- zepto.py `scrape_availability`.  The outer handler records the failure
and resets `availability` to `"Error"` (lines 406-409). -/
def zeptoScrapeAvailability (pg : ZPage) (url timestamp : String) :
    AvailabilityResult :=
  let r0 := zeptoAvailInit url timestamp
  match pg.gotoFail with
  | some e => { r0 with error := some e, availability := "Error" }
  | none =>
    if pg.content404 then
      { r0 with availability := "Not Found", error := some ("404 Not Found") }
    else
      let r1 :=
        match zeptoExtractedJson pg url with
        | some c => zeptoFillFromJson r0 c
        | none => r0
      let r2 :=
        if r1.name == "N/A" then
          match pg.h1 with
          | some t => { r1 with name := t }
          | none => r1
        else r1
      match pg.bodyFail with
      | some e => { r2 with error := some e, availability := "Error" }
      | none =>
        let r3 := if !(optSTruthy r2.manufacturer_details) then
            { r2 with manufacturer_details :=
                extractLineAfter ("Manufacturer Details") pg.bodyText }
          else r2
        let r4 := if !(optSTruthy r3.marketer_details) then
            { r3 with marketer_details := extractLineAfter ("Marketed By") pg.bodyText }
          else r3
        if pg.variantChips != 0 then
          { r4 with variant_count := some (Int.ofNat pg.variantChips) }
        else r4

/-! ## Blinkit availability prober (blinkit.py `scrape_availability`) -/

structure BPage where
  gotoFail : Option String := none
  candidates : List BCand := []
  h1 : Option String := none
  bodyFail : Option String := none
  bodyText : String := ""
deriving Repr

/-- blinkit.py lines 208-224: the pre-filled result record (variant counts
start as `None` here, unlike Zepto). -/
def blinkitAvailInit (url timestamp : String) : AvailabilityResult :=
  { input_pincode := "", url := url, platform := "blinkit", name := "N/A",
    price := 0, mrp := 0, availability := "Unknown", seller_details := none,
    manufacturer_details := none, marketer_details := none,
    variant_count := none, variant_in_stock_count := none,
    inventory := none, scraped_at := timestamp, error := none }

/-- blinkit.py lines 247-258: first candidate whose `str(product_id)`
matches the `prid` id of the URL (no id in the URL means no JSON target). -/
def blinkitTargetData (cands : List BCand) (url : String) : Option BCand :=
  match pridFind url with
  | some tid => cands.find? (fun c => c.product_id.pyStr == tid)
  | none => none

/-- blinkit.py `scrape_availability`.  The outer handler (lines 317-319)
records the failure but does NOT reset `availability`. -/
def blinkitScrapeAvailability (pg : BPage) (url timestamp : String) :
    AvailabilityResult :=
  let r0 := blinkitAvailInit url timestamp
  match pg.gotoFail with
  | some e => { r0 with error := some e }
  | none =>
    let r1 :=
      match blinkitTargetData pg.candidates url with
      | some c =>
        let inv : Int := match c.inventory with | some (some n) => n | _ => 0
        { r0 with name := c.name.getD ("N/A"),
                  price := c.price.getD 0,
                  mrp := c.mrp.getD 0,
                  inventory := some inv,
                  availability := if inv > 0 then "In Stock" else "Out of Stock" }
      | none =>
        match pg.h1 with
        | some t => { r0 with name := t }
        | none => r0
    match pg.bodyFail with
    | some e => { r1 with error := some e }
    | none =>
      let r2 := { r1 with
        manufacturer_details := extractSection ("Manufacturer Details") pg.bodyText,
        marketer_details := extractSection ("Marketed By") pg.bodyText,
        seller_details := sOr (extractSection ("Seller Details") pg.bodyText)
                              (extractSection ("Sold By") pg.bodyText) }
      { r2 with variant_count := some 1,
                variant_in_stock_count :=
                  some (if r2.availability == "In Stock" then (1 : Int) else 0) }

/-! ## Instamart availability prober (instamart.py `scrape_availability`) -/

/-- `product_data.get('brand', {})`: a dict (with optional `name`) or a
plain string. -/
inductive IBrand where
  | obj (name : Option String)
  | str (s : String)
deriving Repr

/-- A dict-shaped JSON-LD `offers` value. -/
structure IOffers where
  price : Option ℚ := none
  availability : Option String := none
deriving Repr

/-- The first JSON-LD `Product` object found across the page's scripts. -/
structure IProd where
  name : Option String := none
  offers : Option IOffers := none
  brand : IBrand := .obj none
deriving Repr

structure IPage where
  gotoFail : Option String := none
  ldProduct : Option IProd := none
  bodyFail : Option String := none
  bodyText : String := ""
  variantContainers : Nat := 0
deriving Repr

/-- instamart.py lines 322-338: the pre-filled result record. -/
def instamartAvailInit (url timestamp : String) : AvailabilityResult :=
  { input_pincode := "", url := url, platform := "instamart", name := "N/A",
    price := 0, mrp := 0, availability := "Unknown", seller_details := none,
    manufacturer_details := none, marketer_details := none,
    variant_count := some 1, variant_in_stock_count := some 1,
    inventory := none, scraped_at := timestamp, error := none }

/-- instamart.py `scrape_availability`.  The outer handler (lines 413-415)
records the failure but does NOT reset `availability`. -/
def instamartScrapeAvailability (pg : IPage) (url timestamp : String) :
    AvailabilityResult :=
  let r0 := instamartAvailInit url timestamp
  match pg.gotoFail with
  | some e => { r0 with error := some e }
  | none =>
    let r1 :=
      match pg.ldProduct with
      | some p =>
        let rA := { r0 with name := p.name.getD ("N/A") }
        let o := p.offers.getD {}
        let rB := { rA with
          price := o.price.getD 0,
          availability := if containsSub (o.availability.getD ("")) ("InStock")
                          then "In Stock" else "Out of Stock" }
        match p.brand with
        | .obj n => { rB with manufacturer_details := n }
        | .str s => { rB with manufacturer_details := some s }
      | none => r0
    match pg.bodyFail with
    | some e => { r1 with error := some e }
    | none =>
      let r2 := if !(optSTruthy r1.manufacturer_details) then
          { r1 with manufacturer_details :=
              extractSection ("Manufacturer Details") pg.bodyText }
        else r1
      let r3 := { r2 with
        marketer_details := extractSection ("Marketed By") pg.bodyText,
        seller_details := extractSection ("Seller Details") pg.bodyText }
      let r4 := { r3 with variant_count := some 1 }
      let r5 := if pg.variantContainers != 0 then
          { r4 with variant_count := some (Int.ofNat pg.variantContainers) }
        else r4
      if r5.availability != "In Stock" then
        { r5 with variant_in_stock_count := some 0 }
      else r5

/-! ## Location setters (zepto.py / blinkit.py `set_location`)

The state machine is modelled as an `Except`-valued body (the steps up to
the ETA extraction, with one failure slot per await point not absorbed by a
nested handler) wrapped by the outer handler, which swallows every failure
and leaves the stored ETA unchanged.  The function returns the session's
`delivery_eta` after the call. -/

structure ZLocPage where
  gotoFail : Option String := none
  trigPrimaryOk : Bool := true
  trigFallbackFail : Option String := none
  inputStepFail : Option String := none
  etaVisible : Bool := false
  etaInnerText : String := ""
  headerText : Option String := none
deriving Repr

/-- zepto.py lines 83-99: the text scanned for the ETA (the
`delivery-time` element when visible, else the header text, else the
initial `"N/A"`). -/
def zeptoEtaTextOf (pg : ZLocPage) : String :=
  if pg.etaVisible then pg.etaInnerText
  else
    match pg.headerText with
    | some t => t
    | none => "N/A"

/-- zepto.py `set_location` body (lines 21-112): navigation, trigger click
with fallback, input interaction, then the ETA regex update.  Suggestion
selection and the update wait have their own absorbing handlers and cannot
fail the body. -/
def zeptoSetLocationBody (pg : ZLocPage) (prevEta : String) :
    Except String String :=
  match pg.gotoFail with
  | some e => .error e
  | none =>
    match (if pg.trigPrimaryOk then none else pg.trigFallbackFail) with
    | some e => .error e
    | none =>
      match pg.inputStepFail with
      | some e => .error e
      | none =>
        .ok (match zeptoEtaFind (zeptoEtaTextOf pg) with
             | some m => pyLower m
             | none => prevEta)

/-- zepto.py `set_location`: the outer handler (lines 114-119) swallows
every failure, so the call always returns normally; on failure the stored
ETA is unchanged. -/
def zeptoSetLocation (pg : ZLocPage) (prevEta : String) : String :=
  match zeptoSetLocationBody pg prevEta with
  | .ok eta => eta
  | .error _ => prevEta

structure BLocPage where
  gotoFail : Option String := none
  modalWaitFail : Option String := none
  etaTitleText : Option String := none
deriving Repr

/-- blinkit.py `set_location` body (lines 33-90): navigation and the modal
input wait are the unabsorbed failure points; the trigger click, the input
interaction and the ETA step have their own absorbing handlers. -/
def blinkitSetLocationBody (pg : BLocPage) (prevEta : String) :
    Except String String :=
  match pg.gotoFail with
  | some e => .error e
  | none =>
    match pg.modalWaitFail with
    | some e => .error e
    | none =>
      .ok (match pg.etaTitleText with
           | some t =>
             match blinkitEtaFind t with
             | some m => pyLower m
             | none => prevEta
           | none => prevEta)

/-- blinkit.py `set_location` with its absorbing outer handler. -/
def blinkitSetLocation (pg : BLocPage) (prevEta : String) : String :=
  match blinkitSetLocationBody pg prevEta with
  | .ok eta => eta
  | .error _ => prevEta

/-! ## Run orchestrator (run_zepto_availability.py `main`) -/

/-- The per-pincode loop of run_zepto_availability.py lines 37-52, with the
scraper abstracted: `setLocRaises` gives the exception (if any) that
`set_location` raises for a pincode — on an exception the orchestrator
`continue`s, skipping that pincode's URLs — and `probe` is
`scrape_availability`, whose result gets `input_pincode` set. -/
def runAvailabilityLoop (data : List (String × List String))
    (setLocRaises : String → Option String)
    (probe : String → AvailabilityResult) : List AvailabilityResult :=
  data.foldl
    (fun acc pr =>
      match setLocRaises pr.1 with
      | some _ => acc
      | none => acc ++ pr.2.map (fun u => { probe u with input_pincode := pr.1 }))
    []

/-- run_zepto_availability.py `main` composed with the Zepto scraper:
`set_location` never raises (its outer handler absorbs everything), so the
orchestrator's `except: continue` branch is unreachable; the session ETA is
threaded across pincodes.  `locPage`/`probePage` give the rendered page for
each pincode / target URL. -/
def runZeptoMain (data : List (String × List String))
    (locPage : String → ZLocPage) (probePage : String → ZPage)
    (timestamp : String) : List AvailabilityResult :=
  (data.foldl
    (fun st pr =>
      let eta := zeptoSetLocation (locPage pr.1) st.1
      (eta, st.2 ++ pr.2.map (fun u =>
        { zeptoScrapeAvailability (probePage u) u timestamp with
          input_pincode := pr.1 })))
    (("N/A"), ([] : List AvailabilityResult))).2

/-! ## Input reader (utils/excel_reader.py `read_input_excel`)

A row is the pair of its pincode cell and URL cell after pandas'
`str(...)` conversion; the grouping is an insertion-ordered map. -/

/-- `str(row[pincode_col]).split('.')[0]`. -/
def normPin (s : String) : String :=
  String.mk (s.data.takeWhile (fun c => !(c == '.')))

/-- `if url and url.lower() != 'nan'` (url already stripped). -/
def urlKept (u : String) : Bool := (u != "") && (pyLower u != "nan")

/-- excel_reader.py lines 33-41: one row — ensure the pincode key exists,
then append the URL only when it is kept. -/
def addRow (m : List (String × List String)) (pin url : String) :
    List (String × List String) :=
  let m1 := if m.any (fun kv => kv.1 == pin) then m else m ++ [(pin, [])]
  if urlKept url then
    m1.map (fun kv => if kv.1 == pin then (kv.1, kv.2 ++ [url]) else kv)
  else m1

/-- excel_reader.py `read_input_excel` over the table rows. -/
def read_input_excel (rows : List (String × String)) :
    List (String × List String) :=
  rows.foldl (fun m r => addRow m (normPin r.1) (pyStrip r.2)) []

/-! ## Helper lemmas about the availability probers -/

theorem zeptoFill_error (r : AvailabilityResult) (c : ZCand) :
    (zeptoFillFromJson r c).error = r.error := by
  unfold zeptoFillFromJson
  repeat' split
  all_goals rfl

theorem zeptoFill_url (r : AvailabilityResult) (c : ZCand) :
    (zeptoFillFromJson r c).url = r.url := by
  unfold zeptoFillFromJson
  repeat' split
  all_goals rfl

theorem zeptoFill_price (r : AvailabilityResult) (c : ZCand) :
    (zeptoFillFromJson r c).price =
      if qTruthy c.sellingPrice then (c.sellingPrice.getD 0) / 100 else r.price := by
  unfold zeptoFillFromJson
  repeat' split
  all_goals rfl

/-! ## C1 -/

/-- Concrete Blinkit product page for the C1 counterexample: the JSON scan
succeeds (product in stock), then reading the body text times out. -/
def c1Page : BPage :=
  { candidates := [{ product_id := .vstr ("123"), price := some 100,
                     inventory := some (some 5) }],
    bodyFail := some ("Timeout 30000ms exceeded") }

/-- C1 counterexample: the claim "error non-null implies availability is
never In Stock for any platform" is false — the Blinkit prober returns
`error = some _` together with `availability = "In Stock"` when a failure
occurs after the JSON extraction set the stock status. -/
theorem C1_counterexample :
    (blinkitScrapeAvailability c1Page ("https://blinkit.com/prn/x/prid/123")
      ("2024-01-01 00:00:00")).error = some ("Timeout 30000ms exceeded") ∧
    (blinkitScrapeAvailability c1Page ("https://blinkit.com/prn/x/prid/123")
      ("2024-01-01 00:00:00")).availability = "In Stock" := by
  constructor <;> rfl

/-- C1 (amended): for the Zepto prober the invariant does hold — whenever
the returned `error` is non-null, `availability` is `"Unknown"`, `"Error"`
or `"Not Found"` (in particular never `"In Stock"`). -/
theorem C1_zepto_error_invariant (pg : ZPage) (url ts : String)
    (h : (zeptoScrapeAvailability pg url ts).error ≠ none) :
    (zeptoScrapeAvailability pg url ts).availability = "Unknown" ∨
    (zeptoScrapeAvailability pg url ts).availability = "Error" ∨
    (zeptoScrapeAvailability pg url ts).availability = "Not Found" := by
  unfold zeptoScrapeAvailability at h ⊢
  cases hg : pg.gotoFail with
  | some e => simp [hg]
  | none =>
    simp only [hg] at h ⊢
    cases h404 : pg.content404 with
    | true => simp [h404]
    | false =>
      simp only [h404, Bool.false_eq_true, if_false] at h ⊢
      cases hb : pg.bodyFail with
      | some e => simp [hb]
      | none =>
        exfalso
        apply h
        simp only [hb]
        cases hx : zeptoExtractedJson pg url <;> simp only [hx] <;> repeat' split
        all_goals (first | rfl | simp [zeptoFill_error, zeptoAvailInit])

/-- C1 witness: a navigation failure gives a non-null error, and the
availability is then `"Error"`. -/
theorem C1_zepto_error_invariant_witness :
    (zeptoScrapeAvailability { gotoFail := some ("net::ERR_TIMED_OUT") }
      ("https://www.zepto.com/pn/x") ("ts")).availability = "Unknown" ∨
    (zeptoScrapeAvailability { gotoFail := some ("net::ERR_TIMED_OUT") }
      ("https://www.zepto.com/pn/x") ("ts")).availability = "Error" ∨
    (zeptoScrapeAvailability { gotoFail := some ("net::ERR_TIMED_OUT") }
      ("https://www.zepto.com/pn/x") ("ts")).availability = "Not Found" :=
  C1_zepto_error_invariant _ _ _ (by decide)

/-! ## C2 -/

/-- C2: the probers are total functions of the page — they always return a
result for the requested URL (the model has no failure escape at all), and
whenever one of the modelled non-absorbed await points fails (`page.goto`,
`page.inner_text("body")`), the failure message is captured in the result's
`error` field instead of being raised.  Stated for the two probers the
claim cites (Zepto and Instamart). -/
theorem C2_probe_total_and_captured (zp : ZPage) (ip : IPage) (url ts : String) :
    (zeptoScrapeAvailability zp url ts).url = url ∧
    (instamartScrapeAvailability ip url ts).url = url ∧
    (zp.gotoFail.isSome = true ∨ zp.bodyFail.isSome = true →
      (zeptoScrapeAvailability zp url ts).error ≠ none) ∧
    (ip.gotoFail.isSome = true ∨ ip.bodyFail.isSome = true →
      (instamartScrapeAvailability ip url ts).error ≠ none) := by
  refine ⟨?_, ?_, ?_, ?_⟩
  · unfold zeptoScrapeAvailability
    cases zp.gotoFail <;> (try rfl)
    all_goals (repeat' (first | rfl | split))
    all_goals (first | rfl |
      simp [apply_ite (fun r : AvailabilityResult => r.url), zeptoFill_url,
        zeptoAvailInit, ite_self])
  · unfold instamartScrapeAvailability
    cases ip.gotoFail <;> (try rfl)
    all_goals (repeat' (first | rfl | split))
    all_goals (first | rfl |
      simp [apply_ite (fun r : AvailabilityResult => r.url),
        instamartAvailInit, ite_self])
  · intro h
    unfold zeptoScrapeAvailability
    cases hg : zp.gotoFail with
    | some e => simp
    | none =>
      cases hb : zp.bodyFail with
      | some e =>
        cases h404 : zp.content404 <;> simp [h404, hb]
      | none => simp [hg, hb] at h
  · intro h
    unfold instamartScrapeAvailability
    cases hg : ip.gotoFail with
    | some e => simp
    | none =>
      cases hb : ip.bodyFail with
      | some e => simp [hb]
      | none => simp [hg, hb] at h

/-- C2 witness: concrete failing pages; both failures land in `error` and
both results carry the probed URL. -/
theorem C2_probe_total_and_captured_witness :
    (zeptoScrapeAvailability { gotoFail := some ("boom") } ("u1") ("ts")).url = "u1" ∧
    (instamartScrapeAvailability { bodyFail := some ("boom") } ("u2") ("ts")).url = "u2" ∧
    ((({ gotoFail := some ("boom") } : ZPage).gotoFail.isSome = true ∨
      ({ gotoFail := some ("boom") } : ZPage).bodyFail.isSome = true) →
      (zeptoScrapeAvailability { gotoFail := some ("boom") } ("u1") ("ts")).error ≠ none) ∧
    ((({ bodyFail := some ("boom") } : IPage).gotoFail.isSome = true ∨
      ({ bodyFail := some ("boom") } : IPage).bodyFail.isSome = true) →
      (instamartScrapeAvailability { bodyFail := some ("boom") } ("u2") ("ts")).error ≠ none) :=
  C2_probe_total_and_captured { gotoFail := some ("boom") }
    { bodyFail := some ("boom") } ("u1" : String) ("ts")
    |>.imp id (fun h2 => h2.imp (fun hu => hu) (fun h3 => h3))
    |> fun h => ⟨h.1, (C2_probe_total_and_captured { gotoFail := some ("boom") }
        { bodyFail := some ("boom") } ("u2") ("ts")).2.1,
      h.2.2.1,
      (C2_probe_total_and_captured { gotoFail := some ("boom") }
        { bodyFail := some ("boom") } ("u2") ("ts")).2.2.2⟩

/-! ## C5 -/

/-- The mocked product page of the C5 scenario: its markup yields exactly
the JSON object with `product_id "123"`, `price 100`, `mrp 120`,
`inventory 0`. -/
def c5Page : BPage :=
  { candidates := [{ product_id := .vstr ("123"), price := some 100,
                     mrp := some 120, inventory := some (some 0) }] }

/-- C5: on the input grouping with pincode `"560001"` and the single target
`https://platform/x/prid/123`, the orchestrator loop with the Blinkit prober
on the mocked page produces exactly one `AvailabilityResult`, carrying
`price = 100`, `mrp = 120`, `availability = "Out of Stock"`, a null
`error`, and the input pincode. -/
theorem C5_end_to_end :
    (runAvailabilityLoop [(("560001"), [("https://platform/x/prid/123")])]
        (fun _ => none)
        (fun u => blinkitScrapeAvailability c5Page u ("2024-01-01 00:00:00"))).map
      (fun r => (r.price, r.mrp, r.availability, r.error, r.input_pincode)) =
    [((100 : ℚ), (120 : ℚ), ("Out of Stock" : String), (none : Option String),
      ("560001" : String))] := by
  decide

/-! ## C6 -/

/-- C6: minor-unit price scaling on Zepto — a raw `sellingPrice` of `19900`
is emitted as exactly `199` (raw amount divided by 100 in exact
arithmetic), both by the assortment record builder and by the availability
prober when the page's extracted JSON carries that raw price. -/
theorem C6_minor_unit_scaling :
    (∀ (ctx : ScanCtx) (nm : String) (c : ZCand), c.sellingPrice = some 19900 →
      (zeptoMkItem ctx nm c).price = 199) ∧
    (∀ (pg : ZPage) (url ts : String) (c : ZCand),
      pg.gotoFail = none → pg.content404 = false →
      zeptoExtractedJson pg url = some c → c.sellingPrice = some 19900 →
      (zeptoScrapeAvailability pg url ts).price = 199) := by
  constructor
  · intro ctx nm c h
    simp [zeptoMkItem, h]
    norm_num
  · intro pg url ts c hg h404 hx hsp
    unfold zeptoScrapeAvailability
    simp only [hg, h404, hx, Bool.false_eq_true, if_false]
    have hfill : ∀ r : AvailabilityResult, (zeptoFillFromJson r c).price = 199 := by
      intro r
      rw [zeptoFill_price]
      simp [qTruthy, hsp]
      norm_num
    cases hb : pg.bodyFail
    all_goals (repeat' (first | rfl | split))
    all_goals (first | rfl |
      simp [apply_ite (fun r : AvailabilityResult => r.price), hfill, ite_self])

/-- Concrete candidate with raw minor-unit price `19900`. -/
def c6Cand : ZCand :=
  { id := "aaaaaaaa-bbbb-cccc-dddd-eeeeeeeeeeee", name := some ("Milk"),
    sellingPrice := some 19900 }

/-- C6 witness: the concrete candidate is normalized to `199` in both paths. -/
theorem C6_minor_unit_scaling_witness :
    (zeptoMkItem (mkScanCtx ("u") ("p") ("e") ("t")) ("Milk") c6Cand).price = 199 ∧
    (zeptoScrapeAvailability { candidates := [c6Cand] } ("u") ("ts")).price = 199 :=
  ⟨C6_minor_unit_scaling.1 (mkScanCtx ("u") ("p") ("e") ("t")) ("Milk") c6Cand rfl,
   C6_minor_unit_scaling.2 { candidates := [c6Cand] } ("u") ("ts") c6Cand
     rfl rfl (by decide) rfl⟩

/-! ## C7 -/

/-- Location page whose navigation times out: every step of the location
flow fails, i.e. the state machine reaches its `Failed` terminal state. -/
def c7LocPage : ZLocPage :=
  { gotoFail := some ("Navigation timeout of 60000 ms exceeded") }

/-- C7 (code bug): the location state machine reaches `Failed` for pincode
`"560001"` (the body errors), yet the orchestrator still probes the
pincode's target URL and produces a result for it — `set_location` swallows
the failure, so `main`'s `except: continue` skip branch can never fire.
The claim (skip all remaining targets of a failed pincode) does not hold. -/
theorem C7_failed_location_still_probed :
    zeptoSetLocationBody c7LocPage ("N/A") =
      Except.error ("Navigation timeout of 60000 ms exceeded") ∧
    (runZeptoMain
        [(("560001"),
          [("https://www.zepto.com/pn/x/pvid/aaaaaaaa-bbbb-cccc-dddd-eeeeeeeeeeee")])]
        (fun _ => c7LocPage) (fun _ => {}) ("ts")).map
      (fun r => (r.input_pincode, r.availability)) =
    [(("560001" : String), ("Unknown" : String))] := by
  constructor
  · rfl
  · decide

/-! ## C8 -/

/-- C8: if the digits-plus-min(s) ETA regex finds no match in the scanned
text, `set_location` leaves the session's stored delivery ETA unchanged —
for Zepto (scanning the delivery-time element / header text) and for
Blinkit (scanning the location-bar title). -/
theorem C8_eta_retained (zpg : ZLocPage) (bpg : BLocPage) (prev : String) :
    (zeptoEtaFind (zeptoEtaTextOf zpg) = none →
      zeptoSetLocation zpg prev = prev) ∧
    (blinkitEtaFind (bpg.etaTitleText.getD ("")) = none →
      blinkitSetLocation bpg prev = prev) := by
  constructor
  · intro h
    unfold zeptoSetLocation zeptoSetLocationBody
    rw [h]
    cases zpg.gotoFail <;> (try rfl)
    cases (if zpg.trigPrimaryOk then none else zpg.trigFallbackFail) <;> (try rfl)
    cases zpg.inputStepFail <;> rfl
  · intro h
    unfold blinkitSetLocation blinkitSetLocationBody
    cases he : bpg.etaTitleText with
    | none =>
      cases bpg.gotoFail <;> (try rfl)
      cases bpg.modalWaitFail <;> rfl
    | some t =>
      have h2 : blinkitEtaFind t = none := by simpa [he] using h
      simp only [h2]
      cases bpg.gotoFail <;> (try rfl)
      cases bpg.modalWaitFail <;> rfl

/-- C8 witness: a scanned text with no ETA match leaves the previous ETA in
place on both platforms. -/
theorem C8_eta_retained_witness :
    zeptoSetLocation { etaVisible := true, etaInnerText := "Delivery soon" }
      ("8 mins") = "8 mins" ∧
    blinkitSetLocation { etaTitleText := some ("Delivery soon") } ("old") = "old" :=
  ⟨(C8_eta_retained { etaVisible := true, etaInnerText := "Delivery soon" }
      { etaTitleText := some ("Delivery soon") } ("8 mins")).1 (by decide),
   (C8_eta_retained { etaVisible := true, etaInnerText := "Delivery soon" }
      { etaTitleText := some ("Delivery soon") } ("old")).2 (by decide)⟩

/-! ## Fold lemmas: values of the candidate maps come from the scanned
candidates; keys are pairwise distinct -/

theorem zeptoFold_mem (cands : List ZCand) :
    ∀ (m : List (String × ZCand)) (kv : String × ZCand),
      kv ∈ zeptoFold m cands → kv ∈ m ∨ kv.2 ∈ cands := by
  induction cands with
  | nil => intro m kv h; exact Or.inl h
  | cons c rest ih =>
    intro m kv h
    unfold zeptoFold at h
    by_cases hp : zPass c = true
    · simp only [hp, if_true] at h
      cases hl : zLookup m (zName c) with
      | none =>
        simp only [hl] at h
        rcases ih _ kv h with hin | hin
        · rcases List.mem_append.mp hin with h1 | h1
          · exact Or.inl h1
          · simp only [List.mem_singleton] at h1
            subst h1
            exact Or.inr (List.mem_cons_self _ _)
        · exact Or.inr (List.mem_cons_of_mem _ hin)
      | some e =>
        simp only [hl] at h
        by_cases hq : (qTruthy c.mrp && !(qTruthy e.mrp)) = true
        · simp only [hq, if_true] at h
          rcases ih _ kv h with hin | hin
          · unfold zReplaceAt at hin
            rcases List.mem_map.mp hin with ⟨kv1, hkv1, heq⟩
            by_cases hk : (kv1.1 == zName c) = true
            · rw [if_pos hk] at heq
              right
              rw [← heq]
              exact List.mem_cons_self _ _
            · rw [if_neg hk] at heq
              rw [← heq]
              exact Or.inl hkv1
          · exact Or.inr (List.mem_cons_of_mem _ hin)
        · simp only [hq, if_false] at h
          rcases ih _ kv h with hin | hin
          · exact Or.inl hin
          · exact Or.inr (List.mem_cons_of_mem _ hin)
    · simp only [Bool.not_eq_true] at hp
      simp only [hp, Bool.false_eq_true, if_false] at h
      rcases ih _ kv h with hin | hin
      · exact Or.inl hin
      · exact Or.inr (List.mem_cons_of_mem _ hin)

theorem blinkitFold_mem (cands : List BCand) :
    ∀ (m : List (String × BCand)) (kv : String × BCand),
      kv ∈ blinkitFold m cands → kv ∈ m ∨ kv.2 ∈ cands := by
  induction cands with
  | nil => intro m kv h; exact Or.inl h
  | cons c rest ih =>
    intro m kv h
    unfold blinkitFold at h
    by_cases hc : (bPid c != "" && !(m.any (fun kv2 => kv2.1 == bPid c))) = true
    · simp only [hc, if_true] at h
      rcases ih _ kv h with hin | hin
      · rcases List.mem_append.mp hin with h1 | h1
        · exact Or.inl h1
        · simp only [List.mem_singleton] at h1
          subst h1
          exact Or.inr (List.mem_cons_self _ _)
      · exact Or.inr (List.mem_cons_of_mem _ hin)
    · simp only [Bool.not_eq_true] at hc
      simp only [hc, Bool.false_eq_true, if_false] at h
      rcases ih _ kv h with hin | hin
      · exact Or.inl hin
      · exact Or.inr (List.mem_cons_of_mem _ hin)

/-! ## C3 -/

/-- Concrete Zepto candidate carrying an explicit `inventory` of `0` and no
sold-out flag. -/
def c3Cand : ZCand :=
  { id := "aaaaaaaa-bbbb-cccc-dddd-eeeeeeeeeeee", name := some ("Amul Milk"),
    inventory := some (some 0) }

/-- C3 counterexample: a Zepto candidate record carrying `inventory = 0`
(and no sold-out flag) is emitted with availability `"In Stock"` — the
Zepto extractor consults only the `isSoldOut` flag, so the claim's
"inventory = 0 implies Out of Stock" direction fails on Zepto. -/
theorem C3_counterexample :
    c3Cand.inventory = some (some 0) ∧ c3Cand.isSoldOut = false ∧
    (zeptoScrapeAssortment { candidates := [c3Cand] }
        ("https://www.zepto.com/cn/dairy/milk/cid/1/scid/2")
        ("560001") ("8 mins") ("ts")).map (fun it => it.availability) =
      [("In Stock")] := by
  refine ⟨rfl, rfl, ?_⟩
  decide

/-- C3 (amended): availability derivation per platform — every emitted item
comes from some scanned candidate, and its availability is `"Out of Stock"`
exactly on that platform's out-of-stock signal, `"In Stock"` otherwise.
On Blinkit the signal is `unavailable_quantity = 1` or `inventory = 0`; on
Zepto it is only the explicit `isSoldOut` flag (a zero inventory alone does
not yield `"Out of Stock"`). -/
theorem C3_availability_derivation :
    (∀ (pg : ZAPage) (url pin eta ts : String) (it : ProductItem),
      it ∈ zeptoScrapeAssortment pg url pin eta ts →
      ∃ c, c ∈ pg.candidates ∧
        it.availability = (if c.isSoldOut then "Out of Stock" else "In Stock")) ∧
    (∀ (cands : List BCand) (url pin eta ts : String) (it : ProductItem),
      it ∈ blinkitScrapeAssortment cands url pin eta ts →
      ∃ c, c ∈ cands ∧
        it.availability =
          (if blinkitUnavailable c then "Out of Stock" else "In Stock")) := by
  constructor
  · intro pg url pin eta ts it h
    unfold zeptoScrapeAssortment at h
    by_cases he : ((pg.is404 || pg.redirectedHome) && !pg.navClickOk) = true
    · rw [if_pos he] at h
      simp at h
    · rw [if_neg he] at h
      rcases List.mem_map.mp h with ⟨kv, hkv, hit⟩
      have h2 : kv ∈ zeptoFold [] pg.candidates := List.mem_of_mem_filter hkv
      rcases zeptoFold_mem _ _ _ h2 with h3 | h3
      · simp at h3
      · exact ⟨kv.2, h3, by rw [← hit]; rfl⟩
  · intro cands url pin eta ts it h
    unfold blinkitScrapeAssortment at h
    rcases List.mem_map.mp h with ⟨kv, hkv, hit⟩
    rcases blinkitFold_mem _ _ _ hkv with h3 | h3
    · simp at h3
    · exact ⟨kv.2, h3, by rw [← hit]; rfl⟩

/-- The item the Zepto pipeline emits for a concrete sold-out candidate. -/
def c3wCand : ZCand :=
  { id := "bbbbbbbb-bbbb-cccc-dddd-eeeeeeeeeeee", name := some ("Paneer"),
    isSoldOut := true }

/-- The emitted item for `c3wCand`. -/
def c3wItem : ProductItem :=
  zeptoMkItem (mkScanCtx ("https://www.zepto.com/cn/dairy/milk/cid/1/scid/2")
    ("560001") ("8 mins") ("ts")) ("Paneer") c3wCand

/-- C3 witness: the amended derivation applied to a concrete scan. -/
theorem C3_availability_derivation_witness :
    ∃ c, c ∈ [c3wCand] ∧
      c3wItem.availability = (if c.isSoldOut then "Out of Stock" else "In Stock") :=
  C3_availability_derivation.1 { candidates := [c3wCand] }
    ("https://www.zepto.com/cn/dairy/milk/cid/1/scid/2")
    ("560001") ("8 mins") ("ts") c3wItem (by exact List.Mem.head _)

/-! ## C4 -/

/-- A Blinkit candidate with id 7 and no populated price/MRP/brand. -/
def c4Bare : BCand := { product_id := .vint 7 }

/-- A Blinkit candidate with the same id and populated fields. -/
def c4Rich : BCand :=
  { product_id := .vint 7, brand := some ("Amul"), mrp := some 50,
    price := some 45, product_name := some ("Butter") }

/-- C4 counterexample: the Blinkit extractor keeps the FIRST candidate for
an id, not the more populated one — with the bare candidate first the
emitted item has no brand and zero MRP, and reversing the encounter order
changes the kept candidate, so the dedup is neither completeness-preferring
nor order-independent. -/
theorem C4_counterexample :
    (blinkitScrapeAssortment [c4Bare, c4Rich]
        ("https://blinkit.com/cn/dairy/butter/cid/1/2") ("560001") ("n") ("ts")).map
      (fun it => (it.brand, it.mrp)) = [(("Unknown" : String), (0 : ℚ))] ∧
    (blinkitScrapeAssortment [c4Rich, c4Bare]
        ("https://blinkit.com/cn/dairy/butter/cid/1/2") ("560001") ("n") ("ts")).map
      (fun it => (it.brand, it.mrp)) = [(("Amul" : String), (50 : ℚ))] := by
  constructor <;> decide

/-- C4 (amended): what the dedup actually guarantees.  Zepto (keyed by
stripped name) prefers a candidate with a truthy `mrp` over one without,
and that preference is order-independent: when exactly one of two
colliding candidates has a truthy `mrp`, that candidate is kept whichever
is encountered first.  Blinkit (keyed by `str(product_id or id)`) always
keeps the first candidate encountered for a given key. -/
theorem C4_dedup_amended :
    (∀ c1 c2 : ZCand, zPass c1 = true → zPass c2 = true → zName c1 = zName c2 →
      qTruthy c1.mrp = true → qTruthy c2.mrp = false →
      zeptoFold [] [c1, c2] = [(zName c1, c1)] ∧
      zeptoFold [] [c2, c1] = [(zName c1, c1)]) ∧
    (∀ b1 b2 : BCand, bPid b1 ≠ "" → bPid b2 = bPid b1 →
      blinkitFold [] [b1, b2] = [(bPid b1, b1)]) := by
  constructor
  · intro c1 c2 hp1 hp2 hn hm1 hm2
    constructor
    · simp [zeptoFold, hp1, hp2, ← hn, hm1, hm2, zLookup, zReplaceAt, List.find?]
    · simp [zeptoFold, hp1, hp2, ← hn, hm1, hm2, zLookup, zReplaceAt, List.find?]
  · intro b1 b2 hne heq
    have hb : (bPid b1 != "") = true := bne_iff_ne.mpr hne
    simp [blinkitFold, hb, heq]

/-- Concrete Zepto collision: same stripped name, only the first candidate
has `mrp`. -/
def c4z1 : ZCand :=
  { id := "aaaaaaaa-bbbb-cccc-dddd-eeeeeeeeeeee", name := some ("X"),
    mrp := some 50 }

/-- The colliding candidate without `mrp`. -/
def c4z2 : ZCand :=
  { id := "ffffffff-bbbb-cccc-dddd-eeeeeeeeeeee", name := some ("X") }

/-- Concrete Blinkit collision partners. -/
def c4b1 : BCand := { product_id := .vstr ("42"), brand := some ("A") }

/-- The second candidate with the same id. -/
def c4b2 : BCand := { product_id := .vstr ("42"), mrp := some 9 }

/-- C4 witness: the amended dedup statements at the concrete collisions. -/
theorem C4_dedup_amended_witness :
    (zeptoFold [] [c4z1, c4z2] = [(zName c4z1, c4z1)] ∧
     zeptoFold [] [c4z2, c4z1] = [(zName c4z1, c4z1)]) ∧
    blinkitFold [] [c4b1, c4b2] = [(bPid c4b1, c4b1)] :=
  ⟨C4_dedup_amended.1 c4z1 c4z2 (by decide) (by decide) (by decide)
      (by decide) (by decide),
   C4_dedup_amended.2 c4b1 c4b2 (by decide) (by decide)⟩

/-! ## Key-distinctness lemmas for the candidate maps -/

theorem nodupKeysAppend {α : Type} {m : List (String × α)} {k : String} (v : α)
    (h : (m.map Prod.fst).Nodup) (hk : (m.any (fun kv => kv.1 == k)) = false) :
    ((m ++ [(k, v)]).map Prod.fst).Nodup := by
  rw [List.map_append]
  refine List.Nodup.append h (List.nodup_singleton k) ?_
  intro a ha hb
  simp only [List.map_cons, List.map_nil, List.mem_singleton] at hb
  subst hb
  rcases List.mem_map.mp ha with ⟨kv, hkv, hfst⟩
  have hp : (kv.1 == a) = true := beq_iff_eq.mpr hfst
  have h2 : m.any (fun kv2 => kv2.1 == a) = true := List.any_eq_true.mpr ⟨kv, hkv, hp⟩
  rw [hk] at h2
  exact Bool.false_ne_true h2

theorem keys_map_eq {α : Type} (m : List (String × α)) (f : String × α → String × α)
    (hf : ∀ kv, (f kv).1 = kv.1) : ((m.map f).map Prod.fst) = m.map Prod.fst := by
  rw [List.map_map]
  have h2 : (Prod.fst ∘ f) = Prod.fst := funext fun kv => hf kv
  rw [h2]

theorem any_false_of_zLookup_none (m : List (String × ZCand)) (n : String)
    (h : zLookup m n = none) : (m.any (fun kv => kv.1 == n)) = false := by
  unfold zLookup at h
  rw [Option.map_eq_none'] at h
  rw [List.find?_eq_none] at h
  simp only [List.any_eq_false]
  exact h

theorem zeptoFold_keys (cands : List ZCand) :
    ∀ m, ((m.map Prod.fst).Nodup) → (((zeptoFold m cands).map Prod.fst).Nodup) := by
  induction cands with
  | nil => intro m h; exact h
  | cons c rest ih =>
    intro m h
    unfold zeptoFold
    by_cases hp : zPass c = true
    · simp only [hp, if_true]
      cases hl : zLookup m (zName c) with
      | none =>
        exact ih _ (nodupKeysAppend _ h (any_false_of_zLookup_none _ _ hl))
      | some e =>
        by_cases hq : (qTruthy c.mrp && !(qTruthy e.mrp)) = true
        · simp only [hq, if_true]
          apply ih
          have h2 : ((zReplaceAt m (zName c) c).map Prod.fst) = m.map Prod.fst := by
            unfold zReplaceAt
            exact keys_map_eq m _
              (fun kv => by by_cases hk : (kv.1 == zName c) = true <;> simp [hk])
          rw [h2]
          exact h
        · simp only [hq, if_false]
          exact ih m h
    · simp only [Bool.not_eq_true] at hp
      simp only [hp, Bool.false_eq_true, if_false]
      exact ih m h

theorem blinkitFold_keys (cands : List BCand) :
    ∀ m, ((m.map Prod.fst).Nodup) → (((blinkitFold m cands).map Prod.fst).Nodup) := by
  induction cands with
  | nil => intro m h; exact h
  | cons c rest ih =>
    intro m h
    unfold blinkitFold
    by_cases hc : (bPid c != "" && !(m.any (fun kv2 => kv2.1 == bPid c))) = true
    · simp only [hc, if_true]
      have hnot : (m.any (fun kv2 => kv2.1 == bPid c)) = false := by
        have h2 := hc
        simp only [Bool.and_eq_true, Bool.not_eq_true'] at h2
        exact h2.2
      exact ih _ (nodupKeysAppend _ h hnot)
    · simp only [Bool.not_eq_true] at hc
      simp only [hc, Bool.false_eq_true, if_false]
      exact ih m h

theorem imUpsert_keys (m : List (String × IStored)) (k : String) (v : IStored)
    (h : (m.map Prod.fst).Nodup) : ((imUpsert m k v).map Prod.fst).Nodup := by
  unfold imUpsert
  by_cases ha : (m.any (fun kv => kv.1 == k)) = true
  · simp only [ha, if_true]
    rw [keys_map_eq m _ (fun kv => by by_cases hk : (kv.1 == k) = true <;> simp [hk])]
    exact h
  · simp only [ha, if_false]
    exact nodupKeysAppend v h (Bool.eq_false_iff.mpr ha)

theorem instamartFold_keys (hashName : String → Nat) (entries : List IEntry) :
    ∀ m, ((m.map Prod.fst).Nodup) →
      (((instamartFold hashName m entries).map Prod.fst).Nodup) := by
  induction entries with
  | nil => intro m h; exact h
  | cons e rest ih =>
    intro m h
    unfold instamartFold
    by_cases hp : e.atProduct = true
    · simp only [hp, if_true]
      exact ih _ (imUpsert_keys _ _ _ h)
    · simp only [Bool.not_eq_true] at hp
      simp only [hp, Bool.false_eq_true, if_false]
      exact ih m h

/-! ## C9 -/

/-- Two Zepto candidates with the SAME id but different names. -/
def c9a : ZCand :=
  { id := "aaaaaaaa-bbbb-cccc-dddd-eeeeeeeeeeee", name := some ("Alpha") }

/-- The second candidate sharing `c9a`'s id under another name. -/
def c9b : ZCand :=
  { id := "aaaaaaaa-bbbb-cccc-dddd-eeeeeeeeeeee", name := some ("Beta") }

/-- C9 counterexample: the Zepto assortment scan dedups by NAME, so two
candidates sharing one id but differing in name are both emitted, and the
returned items carry the same `base_product_id` twice — uniqueness of
`base_product_id` within one scan fails on Zepto. -/
theorem C9_counterexample :
    (zeptoScrapeAssortment { candidates := [c9a, c9b] }
        ("https://www.zepto.com/cn/dairy/milk/cid/1/scid/2")
        ("560001") ("8 mins") ("ts")).map (fun it => it.base_product_id) =
      [some ("aaaaaaaa-bbbb-cccc-dddd-eeeeeeeeeeee"),
       some ("aaaaaaaa-bbbb-cccc-dddd-eeeeeeeeeeee")] ∧
    ¬ ((zeptoScrapeAssortment { candidates := [c9a, c9b] }
        ("https://www.zepto.com/cn/dairy/milk/cid/1/scid/2")
        ("560001") ("8 mins") ("ts")).map (fun it => it.base_product_id)).Nodup := by
  constructor <;> decide

/-- C9 (amended): within one `scrape_assortment` invocation the dedup KEY is
pairwise distinct among the emitted items — `base_product_id` on Blinkit and
Instamart (whose maps are keyed by the platform id), but only the item NAME
on Zepto (whose map is keyed by stripped name, so `base_product_id` may
repeat across differently named candidates). -/
theorem C9_unique_ids :
    (∀ (cands : List BCand) (url pin eta ts : String),
      ((blinkitScrapeAssortment cands url pin eta ts).map
        (fun it => it.base_product_id)).Nodup) ∧
    (∀ (entries : List IEntry) (hashName : String → Nat) (url pin eta ts : String),
      ((instamartScrapeAssortment entries hashName url pin eta ts).map
        (fun it => it.base_product_id)).Nodup) ∧
    (∀ (pg : ZAPage) (url pin eta ts : String),
      ((zeptoScrapeAssortment pg url pin eta ts).map (fun it => it.name)).Nodup) := by
  refine ⟨?_, ?_, ?_⟩
  · intro cands url pin eta ts
    unfold blinkitScrapeAssortment
    rw [List.map_map]
    have he : ((fun it : ProductItem => it.base_product_id) ∘
        (fun kv : String × BCand =>
          blinkitMkItem (mkScanCtx url pin eta ts) kv.1 kv.2)) =
        (Option.some ∘ Prod.fst) := by
      funext kv
      rfl
    rw [he, ← List.map_map]
    exact (blinkitFold_keys cands [] (by simp)).map (Option.some_injective _)
  · intro entries hashName url pin eta ts
    unfold instamartScrapeAssortment
    rw [List.map_map]
    have he : ((fun it : ProductItem => it.base_product_id) ∘
        (fun kv : String × IStored =>
          instamartMkItem
            { category := (instamartCategoryOf url).1,
              subcategory := (instamartCategoryOf url).2,
              clicked_label := clickedLabelOf (instamartCategoryOf url),
              eta := eta, timestamp := ts, pincode := pin } kv.1 kv.2)) =
        (Option.some ∘ Prod.fst) := by
      funext kv
      rfl
    rw [he, ← List.map_map]
    exact (instamartFold_keys hashName entries [] (by simp)).map (Option.some_injective _)
  · intro pg url pin eta ts
    unfold zeptoScrapeAssortment
    by_cases he : ((pg.is404 || pg.redirectedHome) && !pg.navClickOk) = true
    · rw [if_pos he]
      simp
    · rw [if_neg he]
      rw [List.map_map]
      have hc : ((fun it : ProductItem => it.name) ∘
          (fun kv : String × ZCand =>
            zeptoMkItem (mkScanCtx url pin eta ts) kv.1 kv.2)) = Prod.fst := by
        funext kv
        rfl
      rw [hc]
      have hsub : ((zeptoFold [] pg.candidates).filter
          (fun kv => !(zeptoSanitySkip (mkScanCtx url pin eta ts).category kv.1))).map
            Prod.fst |>.Sublist ((zeptoFold [] pg.candidates).map Prod.fst) :=
        List.Sublist.map _ (List.filter_sublist _)
      exact (zeptoFold_keys pg.candidates [] (by simp)).sublist hsub

/-! ## C10 -/

/-- Lookup of a pincode entry in the grouping (first match). -/
def pinLookup (m : List (String × List String)) (p : String) :
    Option (String × List String) :=
  m.find? (fun kv => kv.1 == p)

theorem keys_addRow (m : List (String × List String)) (pin url : String) :
    (addRow m pin url).map Prod.fst =
      (if m.any (fun kv => kv.1 == pin) then m else m ++ [(pin, [])]).map Prod.fst := by
  unfold addRow
  by_cases hu : urlKept url = true
  · simp only [hu, if_true]
    exact keys_map_eq _ _
      (fun kv => by by_cases hk : (kv.1 == pin) = true <;> simp [hk])
  · simp only [Bool.not_eq_true] at hu
    simp only [hu, Bool.false_eq_true, if_false]

theorem addRow_key_self (m : List (String × List String)) (pin url : String) :
    pin ∈ (addRow m pin url).map Prod.fst := by
  rw [keys_addRow]
  by_cases ha : (m.any (fun kv => kv.1 == pin)) = true
  · rw [if_pos ha]
    rcases List.any_eq_true.mp ha with ⟨kv, hkv, hp⟩
    exact List.mem_map.mpr ⟨kv, hkv, beq_iff_eq.mp hp⟩
  · rw [if_neg ha, List.map_append]
    exact List.mem_append.mpr (Or.inr (by simp))

theorem addRow_keys_mono (m : List (String × List String)) (pin url k : String)
    (h : k ∈ m.map Prod.fst) : k ∈ (addRow m pin url).map Prod.fst := by
  rw [keys_addRow]
  by_cases ha : (m.any (fun kv => kv.1 == pin)) = true
  · rw [if_pos ha]
    exact h
  · rw [if_neg ha, List.map_append]
    exact List.mem_append.mpr (Or.inl h)

theorem foldRows_keys_mono (rows : List (String × String)) :
    ∀ (m : List (String × List String)) (k : String), k ∈ m.map Prod.fst →
      k ∈ ((rows.foldl (fun m2 r => addRow m2 (normPin r.1) (pyStrip r.2)) m).map
        Prod.fst) := by
  induction rows with
  | nil => intro m k h; exact h
  | cons r rest ih =>
    intro m k h
    exact ih _ _ (addRow_keys_mono _ _ _ _ h)

theorem foldRows_has_key (rows : List (String × String)) :
    ∀ (m : List (String × List String)) (r : String × String), r ∈ rows →
      normPin r.1 ∈
        ((rows.foldl (fun m2 r2 => addRow m2 (normPin r2.1) (pyStrip r2.2)) m).map
          Prod.fst) := by
  induction rows with
  | nil => intro m r h; cases h
  | cons r0 rest ih =>
    intro m r h
    rcases List.mem_cons.mp h with h1 | h1
    · subst h1
      exact foldRows_keys_mono rest _ _ (addRow_key_self _ _ _)
    · exact ih _ r h1

theorem pinLookup_append_self (m : List (String × List String)) (p : String)
    (v : List String) (h : pinLookup m p = none) :
    pinLookup (m ++ [(p, v)]) p = some (p, v) := by
  unfold pinLookup at h ⊢
  induction m with
  | nil => simp [List.find?]
  | cons kv rest ih =>
    by_cases hk : (kv.1 == p) = true
    · simp only [List.find?, hk] at h
      cases h
    · have hk2 : (kv.1 == p) = false := Bool.eq_false_iff.mpr hk
      simp only [List.find?, hk2] at h
      simp only [List.cons_append, List.find?, hk2]
      exact ih h

theorem pinLookup_update_ne (m : List (String × List String)) (pin url p : String)
    (hne : pin ≠ p) :
    pinLookup (m.map (fun kv => if kv.1 == pin then (kv.1, kv.2 ++ [url]) else kv)) p
      = pinLookup m p := by
  unfold pinLookup
  induction m with
  | nil => rfl
  | cons kv rest ih =>
    simp only [List.map_cons]
    have hfst : ((if kv.1 == pin then (kv.1, kv.2 ++ [url]) else kv)).1 = kv.1 := by
      by_cases h2 : (kv.1 == pin) = true <;> simp [h2]
    by_cases hk : (kv.1 == p) = true
    · have hkpin : (kv.1 == pin) = false := by
        rw [beq_eq_false_iff_ne]
        rw [beq_iff_eq] at hk
        rw [hk]
        exact fun h2 => hne h2.symm
      simp only [hkpin, Bool.false_eq_true, if_false, List.find?, hk]
    · have hk2 : (kv.1 == p) = false := Bool.eq_false_iff.mpr hk
      have hk3 : (((if kv.1 == pin then (kv.1, kv.2 ++ [url]) else kv)).1 == p)
          = false := by rw [hfst]; exact hk2
      simp only [List.find?, hk2, hk3]
      exact ih

theorem pinLookup_append_ne (m : List (String × List String)) (pin p : String)
    (hne : pin ≠ p) (v : List String) :
    pinLookup (m ++ [(pin, v)]) p = pinLookup m p := by
  unfold pinLookup
  have hpinp : (pin == p) = false := beq_eq_false_iff_ne.mpr hne
  induction m with
  | nil => simp [List.find?, hpinp]
  | cons kv rest ih =>
    by_cases hk : (kv.1 == p) = true
    · simp only [List.cons_append, List.find?, hk]
    · have hk2 : (kv.1 == p) = false := Bool.eq_false_iff.mpr hk
      simp only [List.cons_append, List.find?, hk2]
      exact ih

theorem pinLookup_addRow_ne (m : List (String × List String)) (pin url p : String)
    (hne : pin ≠ p) : pinLookup (addRow m pin url) p = pinLookup m p := by
  unfold addRow
  have hm1 : pinLookup (if m.any (fun kv => kv.1 == pin) then m
      else m ++ [(pin, [])]) p = pinLookup m p := by
    by_cases ha : (m.any (fun kv => kv.1 == pin)) = true
    · rw [if_pos ha]
    · rw [if_neg ha]
      exact pinLookup_append_ne m pin p hne []
  by_cases hu : urlKept url = true
  · simp only [hu, if_true]
    rw [pinLookup_update_ne _ _ _ _ hne]
    exact hm1
  · simp only [Bool.not_eq_true] at hu
    simp only [hu, Bool.false_eq_true, if_false]
    exact hm1

theorem pinLookup_addRow_dropped (m : List (String × List String)) (p url : String)
    (hu : urlKept url = false)
    (hinv : pinLookup m p = none ∨ pinLookup m p = some (p, [])) :
    pinLookup (addRow m p url) p = some (p, []) := by
  unfold addRow
  simp only [hu, Bool.false_eq_true, if_false]
  by_cases ha : (m.any (fun kv => kv.1 == p)) = true
  · rw [if_pos ha]
    rcases hinv with h | h
    · rcases List.any_eq_true.mp ha with ⟨kv, hkv, hp⟩
      have h2 := List.find?_eq_none.mp h kv hkv
      exact absurd hp h2
    · exact h
  · rw [if_neg ha]
    have ha2 : pinLookup m p = none := by
      unfold pinLookup
      rw [List.find?_eq_none]
      intro kv hkv hp
      exact ha (List.any_eq_true.mpr ⟨kv, hkv, hp⟩)
    exact pinLookup_append_self m p [] ha2

theorem foldRows_lookup_inv (rows : List (String × String)) :
    ∀ (m : List (String × List String)) (p : String),
      (∀ r ∈ rows, normPin r.1 = p → urlKept (pyStrip r.2) = false) →
      (pinLookup m p = none ∨ pinLookup m p = some (p, [])) →
      (pinLookup (rows.foldl
          (fun m2 r2 => addRow m2 (normPin r2.1) (pyStrip r2.2)) m) p = none ∨
       pinLookup (rows.foldl
          (fun m2 r2 => addRow m2 (normPin r2.1) (pyStrip r2.2)) m) p =
         some (p, [])) := by
  induction rows with
  | nil => intro m p _ hinv; exact hinv
  | cons r rest ih =>
    intro m p hall hinv
    have hrest : ∀ r2 ∈ rest, normPin r2.1 = p → urlKept (pyStrip r2.2) = false :=
      fun r2 h2 => hall r2 (List.mem_cons_of_mem _ h2)
    by_cases hp : normPin r.1 = p
    · have hu : urlKept (pyStrip r.2) = false := hall r (List.mem_cons_self _ _) hp
      apply ih _ _ hrest
      right
      show pinLookup (addRow m (normPin r.1) (pyStrip r.2)) p = some (p, [])
      rw [hp]
      exact pinLookup_addRow_dropped m p _ hu hinv
    · apply ih _ _ hrest
      rw [pinLookup_addRow_ne m _ _ p hp]
      exact hinv

theorem pinLookup_ne_none_of_mem (m : List (String × List String)) (p : String)
    (h : p ∈ m.map Prod.fst) : pinLookup m p ≠ none := by
  rcases List.mem_map.mp h with ⟨kv, hkv, hfst⟩
  intro hn
  unfold pinLookup at hn
  exact absurd (beq_iff_eq.mpr hfst) (List.find?_eq_none.mp hn kv hkv)

/-- C10: every row's normalized pincode appears as a key of the grouping
returned by `read_input_excel`, even when the row's URL cell is blank or
`"nan"`; and a pincode all of whose URL cells are dropped maps to the empty
list (so the orchestrator sets its location but probes zero targets). -/
theorem C10_blank_url_pincode_keys (rows : List (String × String)) :
    (∀ r ∈ rows, normPin r.1 ∈ (read_input_excel rows).map Prod.fst) ∧
    (∀ p, p ∈ (read_input_excel rows).map Prod.fst →
      (∀ r ∈ rows, normPin r.1 = p → urlKept (pyStrip r.2) = false) →
      pinLookup (read_input_excel rows) p = some (p, [])) := by
  constructor
  · intro r h
    unfold read_input_excel
    exact foldRows_has_key rows [] r h
  · intro p hmem hall
    unfold read_input_excel at hmem ⊢
    rcases foldRows_lookup_inv rows [] p hall (Or.inl rfl) with h | h
    · exact absurd h (pinLookup_ne_none_of_mem _ _ hmem)
    · exact h

/-- C10 witness: two rows for pincode cell `"560001.0"`, one blank URL and
one `"nan"` URL — the key `"560001"` is present and maps to `[]`. -/
theorem C10_blank_url_pincode_keys_witness :
    normPin ("560001.0") ∈
      (read_input_excel [(("560001.0"), ("")), (("560001.0"), ("nan"))]).map
        Prod.fst ∧
    pinLookup (read_input_excel [(("560001.0"), ("")), (("560001.0"), ("nan"))])
      ("560001") = some (("560001"), []) :=
  ⟨(C10_blank_url_pincode_keys [(("560001.0"), ("")), (("560001.0"), ("nan"))]).1
      (("560001.0"), ("")) (by decide),
   (C10_blank_url_pincode_keys [(("560001.0"), ("")), (("560001.0"), ("nan"))]).2
      ("560001") (by decide) (by decide)⟩

end ZeptoScraper
